import Mathlib

/-!
Verification of the database-adapter core of the instant-admin-panel
repository.  The definitions below are a shallow embedding of the
PostgresAdapter implementation (src/unnamed/part_000, second full class,
lines 240-773) together with the incomplete adapter variant kept at
src/api/src/data/adapters/PostgresAdapter.ts.  JavaScript runtime values
are modelled by the inductive type Value; statement text is modelled as
Lean strings with whitespace normalized to single spaces (the source
builds the same text with newlines and indentation); SQL single-quote
characters are written with the escape \x27.  The database handle is
modelled as a function from a statement and its bound-parameter list to
the row list the statement returns, which lets the theorems speak about
which statements an operation executes and with which bound parameters.
-/

namespace AdminPanel

/-- Scalar JavaScript values appearing as array elements of an in/nin
filter value.  Runtime arrays in this code base hold scalars only. -/
inductive Prim where
  | pNull
  | pBool (b : Bool)
  | pNum (n : Int)
  | pStr (s : String)
  deriving DecidableEq

/-- Runtime JavaScript values flowing through the adapter
(the TypeScript DatabaseValue union plus the runtime array case used by
the in/nin filters; dates are carried as their string rendering).
vUndefined models the JavaScript value undefined, distinct from null. -/
inductive Value where
  | vNull
  | vUndefined
  | vBool (b : Bool)
  | vNum (n : Int)
  | vStr (s : String)
  | vDate (iso : String)
  | vArr (elems : List Prim)
  deriving DecidableEq

/-- Array.isArray. -/
def isJsArray : Value → Bool
  | .vArr _ => true
  | _ => false

/-- Tests for the JavaScript value undefined. -/
def isUndefinedV : Value → Bool
  | .vUndefined => true
  | _ => false

/-- JavaScript truthiness of a Value (used by the || defaulting idiom). -/
def jsTruthy : Value → Bool
  | .vNull => false
  | .vUndefined => false
  | .vBool b => b
  | .vNum n => !(n == 0)
  | .vStr s => !(s == "")
  | .vDate _ => true
  | .vArr _ => true

/-- String rendering of a scalar, as JavaScript template interpolation does. -/
def jsPrimToString : Prim → String
  | .pNull => "null"
  | .pBool b => if b then "true" else "false"
  | .pNum n => toString n
  | .pStr s => s

/-- String rendering of a Value, as JavaScript template interpolation does
(only the string and number cases matter to the claims). -/
def jsValueToString : Value → String
  | .vNull => "null"
  | .vUndefined => "undefined"
  | .vBool b => if b then "true" else "false"
  | .vNum n => toString n
  | .vStr s => s
  | .vDate iso => iso
  | .vArr xs => String.intercalate "," (xs.map jsPrimToString)

/-- JavaScript parseInt applied to a database value (the COUNT result);
the count comes back as a decimal numeric or string value. -/
def jsParseInt : Value → Int
  | .vNum n => n
  | .vStr s => (s.toInt?).getD 0
  | _ => 0

/-- Doubling of every double-quote character of a name (character 34),
the escaping step of pg-promise identifier quoting. -/
def escapeQuoteChars (s : String) : String :=
  String.mk (s.data.foldr
    (fun c acc => if c = Char.ofNat 34 then c :: c :: acc else c :: acc) [])

/-- pg-promise identifier quoting, this.pgp.as.name: wrap the name in
double quotes, doubling every embedded double-quote character. -/
def quoteName (s : String) : String :=
  "\"" ++ escapeQuoteChars s ++ "\""

/-- A row returned by the database: field name to value. -/
abbrev Row := List (String × Value)

/-- JavaScript property access on a row; a missing field is undefined. -/
def rowField (r : Row) (k : String) : Value :=
  ((r.find? (fun kv => kv.1 == k)).map (fun kv => kv.2)).getD Value.vUndefined

/-- Model of the pg-promise database handle: exec maps a statement and its
bound-parameter list to the rows the database returns for it. -/
structure Db where
  exec : String → List Value → List Row

/-- pg-promise db.one: exactly one row expected, otherwise a rejection. -/
def pgOne (rows : List Row) : Except String Row :=
  match rows with
  | [] => .error "No data returned from the query."
  | [r] => .ok r
  | _ => .error "Multiple rows were not expected."

/-- pg-promise db.oneOrNone: zero rows give none, one row gives the row,
and more than one row is a rejection. -/
def pgOneOrNone (rows : List Row) : Except String (Option Row) :=
  match rows with
  | [] => .ok none
  | [r] => .ok (some r)
  | _ => .error "Multiple rows were not expected."

/-- The adapter fields consulted by every operation: this.db and the
schema name from this.config (none models a null field). -/
structure AdapterState where
  db : Option Db
  schema : Option String

/-- An executed statement paired with its bound-parameter list. -/
abbrev Stmt := String × List Value

/-- A filter term of TableDataOptions.  The operator is a runtime string
(the TypeScript union type is erased at runtime) and an absent value
field reads as undefined. -/
structure Filter where
  column : String
  operator : String
  value : Value
  deriving DecidableEq

/-- The operators of the switch in getTableData
(src/unnamed/part_000 lines 644-705). -/
def supportedFilterOperators : List String :=
  ["eq", "neq", "gt", "gte", "lt", "lte", "in", "nin", "like",
   "contains", "isNull", "isNotNull"]

/-- One iteration of the filter loop of getTableData
(src/unnamed/part_000 lines 641-706): given the clause list and the
parameter list built so far, handle one filter term.  Each arm mirrors
one case of the source switch; queryParams.length is read after the push,
hence the length of the extended list appears in the placeholder. -/
def compileFilterStep (acc : List String × List Value) (f : Filter) :
    Except String (List String × List Value) :=
  let clauses := acc.1
  let params := acc.2
  let col := quoteName f.column
  match f.operator with
  | "eq" =>
      if f.value = Value.vNull then
        .ok (clauses ++ [col ++ " IS NULL"], params)
      else
        let ps := params ++ [f.value]
        .ok (clauses ++ [col ++ " = $" ++ toString ps.length], ps)
  | "neq" =>
      if f.value = Value.vNull then
        .ok (clauses ++ [col ++ " IS NOT NULL"], params)
      else
        let ps := params ++ [f.value]
        .ok (clauses ++ [col ++ " <> $" ++ toString ps.length], ps)
  | "gt" =>
      let ps := params ++ [f.value]
      .ok (clauses ++ [col ++ " > $" ++ toString ps.length], ps)
  | "gte" =>
      let ps := params ++ [f.value]
      .ok (clauses ++ [col ++ " >= $" ++ toString ps.length], ps)
  | "lt" =>
      let ps := params ++ [f.value]
      .ok (clauses ++ [col ++ " < $" ++ toString ps.length], ps)
  | "lte" =>
      let ps := params ++ [f.value]
      .ok (clauses ++ [col ++ " <= $" ++ toString ps.length], ps)
  | "in" =>
      if isJsArray f.value then
        let ps := params ++ [f.value]
        .ok (clauses ++ [col ++ " = ANY($" ++ toString ps.length ++ ")"], ps)
      else
        .ok (clauses, params)
  | "nin" =>
      if isJsArray f.value then
        let ps := params ++ [f.value]
        .ok (clauses ++ [col ++ " != ALL($" ++ toString ps.length ++ ")"], ps)
      else
        .ok (clauses, params)
  | "like" =>
      let ps := params ++ [f.value]
      .ok (clauses ++ [col ++ " LIKE $" ++ toString ps.length], ps)
  | "contains" =>
      let ps := params ++ [Value.vStr ("%" ++ jsValueToString f.value ++ "%")]
      .ok (clauses ++ [col ++ " LIKE $" ++ toString ps.length], ps)
  | "isNull" =>
      .ok (clauses ++ [col ++ " IS NULL"], params)
  | "isNotNull" =>
      .ok (clauses ++ [col ++ " IS NOT NULL"], params)
  | op => .error ("Unsupported filter operator: " ++ op)

/-- The filter loop of getTableData: fold compileFilterStep over the
filter list, stopping at the first error (the source throw). -/
def compileFilters (fs : List Filter) (acc : List String × List Value) :
    Except String (List String × List Value) :=
  match fs with
  | [] => .ok acc
  | f :: rest =>
      match compileFilterStep acc f with
      | .ok acc2 => compileFilters rest acc2
      | .error e => .error e

/-- The WHERE clause and parameter list of getTableData
(src/unnamed/part_000 lines 635-711): the clause is emitted only when at
least one filter produced a fragment. -/
def compiledWhere (filters : List Filter) : Except String (String × List Value) :=
  if filters.length > 0 then
    match compileFilters filters ([], []) with
    | .error e => .error e
    | .ok (clauses, params) =>
        .ok ((if clauses.length > 0 then
                "WHERE " ++ String.intercalate " AND " clauses
              else ""), params)
  else
    .ok ("", [])

/-- One sort term of TableDataOptions.orderBy. -/
structure OrderTerm where
  column : String
  direction : String
  deriving DecidableEq

/-- The ORDER BY clause of getTableData (src/unnamed/part_000
lines 713-725): quoted column, normalized direction, explicit NULLS
placement. -/
def orderByClauseOf (terms : List OrderTerm) : String :=
  if terms.length > 0 then
    "ORDER BY " ++ String.intercalate ", " (terms.map (fun t =>
      let col := quoteName t.column
      let dir := if t.direction.toUpper == "DESC" then "DESC" else "ASC"
      let nullsPosition := if dir == "DESC" then "NULLS LAST" else "NULLS FIRST"
      col ++ " " ++ dir ++ " " ++ nullsPosition))
  else ""

/-- TableDataOptions: optional page and perPage (none models an absent
field), sort terms, filter terms (an absent filter list behaves as the
empty list in the source guard). -/
structure TableDataOptions where
  perPage : Option Int
  page : Option Int
  orderBy : List OrderTerm
  filters : List Filter

/-- The JavaScript defaulting idiom (x || d) for an optional numeric
field: an absent field and 0 are falsy and fall back to the default. -/
def jsOrDefault (x : Option Int) (d : Int) : Int :=
  match x with
  | none => d
  | some n => if n = 0 then d else n

/-- Math.ceil(a / b) for integers a and nonzero b. -/
def ceilDivInt (a b : Int) : Int := -((-a).fdiv b)

/-- totalPages as computed by getTableData (src/unnamed/part_000
line 746): Math.ceil(total / perPage) || 0. -/
def totalPagesJs (total perPage : Int) : Int :=
  let c := ceilDivInt total perPage
  if c = 0 then 0 else c

/-- The pure statement-construction part of getTableData
(src/unnamed/part_000 lines 627-738): pagination defaults, filter and
sort compilation, and the paired data and count statement texts. -/
structure QueryPlan where
  perPage : Int
  page : Int
  offset : Int
  whereClause : String
  orderByClause : String
  params : List Value
  dataQuery : String
  countQuery : String

def buildTableDataPlan (schema tableName : String) (options : TableDataOptions) :
    Except String QueryPlan :=
  let safeSchemaName := quoteName schema
  let safeTableName := quoteName tableName
  let perPage := jsOrDefault options.perPage 10
  let page := jsOrDefault options.page 1
  let offset := (page - 1) * perPage
  match compiledWhere options.filters with
  | .error e => .error e
  | .ok (whereClause, queryParams) =>
      let orderByClause := orderByClauseOf options.orderBy
      let dataQuery :=
        "SELECT * FROM " ++ safeSchemaName ++ "." ++ safeTableName ++ " " ++
          whereClause ++ " " ++ orderByClause ++ " LIMIT " ++ toString perPage ++
          " OFFSET " ++ toString offset
      let countQuery :=
        "SELECT COUNT(*) as total FROM " ++ safeSchemaName ++ "." ++
          safeTableName ++ " " ++ whereClause
      .ok { perPage, page, offset, whereClause, orderByClause,
            params := queryParams, dataQuery, countQuery }

/-- The TableData result assembled by getTableData. -/
structure TableDataResult where
  data : List Row
  total : Int
  page : Int
  perPage : Int
  totalPages : Int

/-- PostgresAdapter.getTableData (src/unnamed/part_000 lines 622-762):
connection and config guards, statement construction, concurrent
execution of the data and count statements with one shared parameter
list, and assembly of the TableData page.  The second component lists
the statements executed together with their bound parameters. -/
def getTableData (st : AdapterState) (tableName : String)
    (options : TableDataOptions) : Except String TableDataResult × List Stmt :=
  match st.db with
  | none => (.error "Database not connected", [])
  | some d =>
      match st.schema with
      | none => (.error "Database config not set", [])
      | some schema =>
          match buildTableDataPlan schema tableName options with
          | .error e => (.error ("Failed to fetch table data: " ++ e), [])
          | .ok plan =>
              let dataRows := d.exec plan.dataQuery plan.params
              let countRows := d.exec plan.countQuery plan.params
              let log := [(plan.dataQuery, plan.params), (plan.countQuery, plan.params)]
              match pgOne countRows with
              | .error e => (.error ("Failed to fetch table data: " ++ e), log)
              | .ok countRow =>
                  let total := jsParseInt (rowField countRow "total")
                  (.ok { data := dataRows, total,
                         page := plan.page, perPage := plan.perPage,
                         totalPages := totalPagesJs total plan.perPage }, log)

/-- The unified column type enumeration (src/unnamed/part_000 lines 26-40). -/
inductive UnifiedColumnType where
  | INTEGER
  | FLOAT
  | DECIMAL
  | STRING
  | BOOLEAN
  | DATE
  | TIME
  | DATETIME
  | BINARY
  | JSON
  | ARRAY
  | OBJECT
  | UNKNOWN
  deriving DecidableEq

/-- The native type names that appear as cases of the switch in
mapPostgresTypeToUnifiedType (src/unnamed/part_000 lines 420-479). -/
def knownUdtNames : List String :=
  ["int2", "int4", "int8", "smallint", "integer", "bigint",
   "float4", "float8", "real", "double precision",
   "numeric", "decimal",
   "char", "varchar", "text", "name", "bpchar", "uuid",
   "bool", "boolean",
   "date",
   "time", "timetz",
   "timestamp", "timestamptz",
   "bytea",
   "json", "jsonb",
   "_int2", "_int4", "_int8", "_text", "_varchar", "_bool",
   "_numeric", "_float4", "_float8", "_timestamp", "_date", "_uuid",
   "hstore", "record"]

/-- mapPostgresTypeToUnifiedType (src/unnamed/part_000 lines 420-479):
a switch on the udt name; the dataType argument is accepted and ignored,
exactly as in the source; any name outside the switch falls through to
UNKNOWN. -/
def mapPostgresTypeToUnifiedType (dataType udtName : String) : UnifiedColumnType :=
  match udtName with
  | "int2" | "int4" | "int8" | "smallint" | "integer" | "bigint" =>
      UnifiedColumnType.INTEGER
  | "float4" | "float8" | "real" | "double precision" =>
      UnifiedColumnType.FLOAT
  | "numeric" | "decimal" =>
      UnifiedColumnType.DECIMAL
  | "char" | "varchar" | "text" | "name" | "bpchar" | "uuid" =>
      UnifiedColumnType.STRING
  | "bool" | "boolean" =>
      UnifiedColumnType.BOOLEAN
  | "date" =>
      UnifiedColumnType.DATE
  | "time" | "timetz" =>
      UnifiedColumnType.TIME
  | "timestamp" | "timestamptz" =>
      UnifiedColumnType.DATETIME
  | "bytea" =>
      UnifiedColumnType.BINARY
  | "json" | "jsonb" =>
      UnifiedColumnType.JSON
  | "_int2" | "_int4" | "_int8" | "_text" | "_varchar" | "_bool"
  | "_numeric" | "_float4" | "_float8" | "_timestamp" | "_date" | "_uuid" =>
      UnifiedColumnType.ARRAY
  | "hstore" | "record" =>
      UnifiedColumnType.OBJECT
  | _ =>
      UnifiedColumnType.UNKNOWN

/-- The table-list statement of getTableList (src/unnamed/part_000
lines 308-313): the configured schema is bound as $1. -/
def getTableListQuery : String :=
  "SELECT table_name FROM information_schema.tables WHERE table_schema = $1 AND table_type = \x27BASE TABLE\x27"

/-- PostgresAdapter.getTableList (src/unnamed/part_000 lines 304-317). -/
def getTableList (st : AdapterState) : Except String (List Value) × List Stmt :=
  match st.db with
  | none => (.error "Database not connected", [])
  | some d =>
      match st.schema with
      | none => (.error "Database config not set", [])
      | some schema =>
          let ps : List Value := [Value.vStr schema]
          let rows := d.exec getTableListQuery ps
          (.ok (rows.map (fun r => rowField r "table_name")), [(getTableListQuery, ps)])

/-- The columns-introspection statement of getTableSchema
(src/unnamed/part_000 lines 323-340): schema and table name bound as
$1 and $2. -/
def getTableSchemaColumnsQuery : String :=
  "SELECT column_name, data_type, udt_name, is_nullable, column_default, character_maximum_length, numeric_precision, numeric_scale FROM information_schema.columns WHERE table_schema = $1 AND table_name = $2 ORDER BY ordinal_position"

/-- The primary-key introspection statement of getTableSchema
(src/unnamed/part_000 lines 344-356). -/
def getTableSchemaPrimaryKeyQuery : String :=
  "SELECT kcu.column_name FROM information_schema.table_constraints tc JOIN information_schema.key_column_usage kcu ON tc.constraint_name = kcu.constraint_name AND tc.table_schema = kcu.table_schema WHERE tc.constraint_type = \x27PRIMARY KEY\x27 AND tc.table_schema = $1 AND tc.table_name = $2"

/-- The foreign-key introspection statement of getTableSchema
(src/unnamed/part_000 lines 361-383). -/
def getTableSchemaForeignKeyQuery : String :=
  "SELECT kcu.column_name, ccu.table_name AS foreign_table_name, ccu.column_name AS foreign_column_name, rc.delete_rule, rc.update_rule FROM information_schema.table_constraints tc JOIN information_schema.key_column_usage kcu ON tc.constraint_name = kcu.constraint_name AND tc.table_schema = kcu.table_schema JOIN information_schema.referential_constraints rc ON tc.constraint_name = rc.constraint_name AND tc.table_schema = rc.constraint_schema JOIN information_schema.constraint_column_usage ccu ON ccu.constraint_name = tc.constraint_name AND ccu.table_schema = tc.table_schema WHERE tc.constraint_type = \x27FOREIGN KEY\x27 AND tc.table_schema = $1 AND tc.table_name = $2"

/-- The unique/check constraint introspection statement of getTableSchema
(src/unnamed/part_000 lines 387-416). -/
def getTableSchemaConstraintQuery : String :=
  "WITH table_oid AS (SELECT c.oid FROM pg_catalog.pg_class c JOIN pg_catalog.pg_namespace n ON n.oid = c.relnamespace WHERE n.nspname = $1 AND c.relname = $2) SELECT tc.constraint_name, tc.constraint_type, kcu.column_name, cc.check_clause, pg_get_constraintdef(pgc.oid) as constraint_definition FROM information_schema.table_constraints tc LEFT JOIN information_schema.key_column_usage kcu ON tc.constraint_name = kcu.constraint_name AND tc.table_schema = kcu.table_schema LEFT JOIN information_schema.check_constraints cc ON tc.constraint_name = cc.constraint_name AND tc.table_schema = cc.constraint_schema LEFT JOIN pg_catalog.pg_constraint pgc ON pgc.conname = tc.constraint_name AND pgc.conrelid = (SELECT oid FROM table_oid) WHERE tc.table_schema = $1 AND tc.table_name = $2 AND tc.constraint_type IN (\x27UNIQUE\x27, \x27CHECK\x27)"

/-- A processed column of the TableSchema (src/unnamed/part_000
lines 481-489): name, native data type, unified type, nullability, and
the default rendered through the JavaScript || idiom (a falsy
column_default reads as undefined). -/
structure ColumnInfo where
  name : Value
  dataType : Value
  unifiedType : UnifiedColumnType
  isNullable : Bool
  defaultValue : Value
  deriving DecidableEq

def processColumn (r : Row) : ColumnInfo :=
  { name := rowField r "column_name",
    dataType := rowField r "data_type",
    unifiedType := mapPostgresTypeToUnifiedType
      (jsValueToString (rowField r "data_type"))
      (jsValueToString (rowField r "udt_name")),
    isNullable := rowField r "is_nullable" == Value.vStr "YES",
    defaultValue :=
      let d := rowField r "column_default"
      if jsTruthy d then d else Value.vUndefined }

/-- PostgresAdapter.getTableSchema (src/unnamed/part_000 lines 319-531):
connection and config guards, then the four introspection statements,
each executed with the bound parameters [schema, tableName], then column
processing through mapPostgresTypeToUnifiedType.  The foreign-key and
constraint post-processing of the returned rows (lines 491-530, a pure
reshaping touched by no claim) is not part of the modelled result; the
construction and execution of all four statements is. -/
def getTableSchema (st : AdapterState) (tableName : String) :
    Except String (List ColumnInfo) × List Stmt :=
  match st.db with
  | none => (.error "Database not connected", [])
  | some d =>
      match st.schema with
      | none => (.error "Database config not set", [])
      | some schema =>
          let ps : List Value := [Value.vStr schema, Value.vStr tableName]
          let columnRows := d.exec getTableSchemaColumnsQuery ps
          (.ok (columnRows.map processColumn),
           [(getTableSchemaColumnsQuery, ps),
            (getTableSchemaPrimaryKeyQuery, ps),
            (getTableSchemaForeignKeyQuery, ps),
            (getTableSchemaConstraintQuery, ps)])

/-- The INSERT statement text built by createRecord (src/unnamed/part_000
lines 553-560): the schema and table name are wrapped in literal double
quotes by the template string (no doubling of embedded quote characters),
and the column names are joined in raw, without any identifier
quoting. -/
def insertQueryOf (schema tableName : String) (columns : List String) : String :=
  "INSERT INTO \"" ++ schema ++ "\".\"" ++ tableName ++ "\" (" ++
    String.intercalate ", " columns ++ ") VALUES (" ++
    String.intercalate ", "
      ((List.range columns.length).map (fun i => "$" ++ toString (i + 1))) ++
    ") RETURNING *"

/-- PostgresAdapter.createRecord (src/unnamed/part_000 lines 534-571):
guards, the drop of explicitly-undefined fields, the empty-record
failure, the INSERT with bound values and RETURNING *, read through
db.one, and the Failed-to-create-record wrapping of errors raised inside
the try block. -/
def createRecord (st : AdapterState) (tableName : String)
    (record : List (String × Value)) : Except String Row × List Stmt :=
  match st.db with
  | none => (.error "Database not connected", [])
  | some d =>
      match st.schema with
      | none => (.error "Database config not set", [])
      | some schema =>
          let filteredRecord := record.filter (fun kv => !(isUndefinedV kv.2))
          let columns := filteredRecord.map Prod.fst
          let values := filteredRecord.map Prod.snd
          if columns.length = 0 then
            (.error "Failed to create record: Record cannot be empty", [])
          else
            let query := insertQueryOf schema tableName columns
            let rows := d.exec query values
            match pgOne rows with
            | .ok r => (.ok r, [(query, values)])
            | .error e => (.error ("Failed to create record: " ++ e), [(query, values)])

/-- The per-field loop of deleteRecord (src/unnamed/part_000
lines 588-598): a null value contributes an IS NULL clause and no
parameter; any other value is pushed and compared with a placeholder
(whereValues.length is read after the push). -/
def deleteWhereAux : List (String × Value) → List String × List Value →
    List String × List Value
  | [], acc => acc
  | kv :: rest, acc =>
      let safeColumnName := quoteName kv.1
      if kv.2 = Value.vNull then
        deleteWhereAux rest (acc.1 ++ [safeColumnName ++ " IS NULL"], acc.2)
      else
        deleteWhereAux rest
          (acc.1 ++ [safeColumnName ++ " = $" ++ toString (acc.2.length + 1)],
           acc.2 ++ [kv.2])

def deleteWhereParts (wh : List (String × Value)) : List String × List Value :=
  deleteWhereAux wh ([], [])

/-- The DELETE statement text of deleteRecord (src/unnamed/part_000
lines 605-609): schema and table quoted through pgp.as.name. -/
def deleteQueryOf (schema tableName whereClause : String) : String :=
  "DELETE FROM " ++ quoteName schema ++ "." ++ quoteName tableName ++
    " WHERE " ++ whereClause ++ " RETURNING 1 AS deleted"

/-- PostgresAdapter.deleteRecord (src/unnamed/part_000 lines 573-620):
guards, the empty-where failure (raised inside the try block, hence
wrapped), equality predicates ANDed together with IS NULL for null
values, execution read through db.oneOrNone, and !!result. -/
def deleteRecord (st : AdapterState) (tableName : String)
    (wh : List (String × Value)) : Except String Bool × List Stmt :=
  match st.db with
  | none => (.error "Database not connected", [])
  | some d =>
      match st.schema with
      | none => (.error "Database config not set", [])
      | some schema =>
          if wh.length = 0 then
            (.error "Failed to delete record: Where conditions cannot be empty", [])
          else
            let parts := deleteWhereParts wh
            let whereClause := String.intercalate " AND " parts.1
            let query := deleteQueryOf schema tableName whereClause
            let rows := d.exec query parts.2
            match pgOneOrNone rows with
            | .ok r => (.ok r.isSome, [(query, parts.2)])
            | .error e => (.error ("Failed to delete record: " ++ e), [(query, parts.2)])

/-- The columns-introspection statement as built by the getTableSchema of
the adapter variant kept at src/api/src/data/adapters/PostgresAdapter.ts
(lines 83-100): the configured schema and the caller-supplied table name
are interpolated into the statement text as quoted string literals
instead of being bound. -/
def getTableSchemaColumnsQueryVariant (schema tableName : String) : String :=
  "SELECT column_name, data_type, udt_name, is_nullable, column_default, character_maximum_length, numeric_precision, numeric_scale FROM information_schema.columns WHERE table_schema = \x27" ++
    schema ++ "\x27 AND table_name = \x27" ++ tableName ++
    "\x27 ORDER BY ordinal_position"

/-- A database handle returning the same fixed row list for every
statement; used to evaluate the operations at concrete inputs. -/
def constDb (rows : List Row) : Db := ⟨fun _ _ => rows⟩

/-- Two RETURNING rows, the response of a DELETE that removed two rows. -/
def twoDeletedRows : List Row :=
  [[("deleted", Value.vNum 1)], [("deleted", Value.vNum 1)]]

/-- TableDataOptions with every field absent or empty. -/
def defaultSampleOptions : TableDataOptions := ⟨none, none, [], []⟩

/-- The plan getTableData builds for defaultSampleOptions on table t of
schema public. -/
def samplePlan : QueryPlan :=
  { perPage := 10, page := 1, offset := 0, whereClause := "",
    orderByClause := "", params := [],
    dataQuery := "SELECT * FROM \"public\".\"t\"   LIMIT 10 OFFSET 0",
    countQuery := "SELECT COUNT(*) as total FROM \"public\".\"t\" " }

/-! ## Helper lemmas -/

theorem totalPagesJs_eq_ceilDivInt (t p : Int) :
    totalPagesJs t p = ceilDivInt t p := by
  unfold totalPagesJs
  by_cases h : ceilDivInt t p = 0 <;> simp [h]

theorem ceilDivInt_ceil_bounds (t : Int) {p : Int} (hp : 0 < p) :
    t ≤ ceilDivInt t p * p ∧ (ceilDivInt t p - 1) * p < t := by
  unfold ceilDivInt
  rw [Int.fdiv_eq_ediv _ (le_of_lt hp)]
  have he := Int.ediv_add_emod (-t) p
  have hr0 := Int.emod_nonneg (-t) (ne_of_gt hp)
  have hrp := Int.emod_lt_of_pos (-t) hp
  constructor <;> nlinarith [he, hr0, hrp]

theorem totalPagesJs_zero (p : Int) : totalPagesJs 0 p = 0 := by
  simp [totalPagesJs, ceilDivInt, Int.zero_fdiv]

theorem notUndefined_iff (v : Value) :
    ((!(isUndefinedV v)) = true) ↔ v ≠ Value.vUndefined := by
  cases v <;> simp [isUndefinedV]

/-! ## Claim theorems -/

set_option maxRecDepth 8192 in
/-- C1: the claim states that every caller-supplied literal value,
including the caller-supplied table name used as a literal in the
introspection queries, reaches the database only through the parameter
binding list, so that the compiled statement text is independent of the
value.  The getTableSchema of the adapter variant at
src/api/src/data/adapters/PostgresAdapter.ts interpolates the table name
into the statement text instead: at the failing input the payload
appears verbatim inside the WHERE fragment, and the statement text
differs between two table-name values. -/
theorem c1_introspection_interpolates_table_name :
    getTableSchemaColumnsQueryVariant "public" "t\x27 OR \x271\x27=\x271" =
      "SELECT column_name, data_type, udt_name, is_nullable, column_default, character_maximum_length, numeric_precision, numeric_scale FROM information_schema.columns WHERE table_schema = \x27public\x27 AND table_name = \x27t\x27 OR \x271\x27=\x271\x27 ORDER BY ordinal_position"
    ∧ getTableSchemaColumnsQueryVariant "public" "t" ≠
        getTableSchemaColumnsQueryVariant "public" "t2" := by
  exact ⟨rfl, by decide⟩

/-- C2: the claim states that every table and column name interpolated
into statement text first passes through the identifier-quoting function
(double quotes, embedded quotes doubled), in particular for the column
names of the record in createRecord and the schema/table names of its
INSERT target.  The statement text createRecord builds contains the
column name raw and unquoted (first conjunct; quoteName would have
produced the quoted form of the second conjunct), and an embedded double
quote in the table name is copied into the text undoubled (third
conjunct; quoteName would have doubled it, fourth conjunct). -/
theorem c2_createRecord_identifiers_not_quoted :
    insertQueryOf "public" "users" ["name) VALUES (0); --"] =
      "INSERT INTO \"public\".\"users\" (name) VALUES (0); --) VALUES ($1) RETURNING *"
    ∧ quoteName "name) VALUES (0); --" = "\"name) VALUES (0); --\""
    ∧ insertQueryOf "public" "us\"ers" ["a"] =
        "INSERT INTO \"public\".\"us\"ers\" (a) VALUES ($1) RETURNING *"
    ∧ quoteName "us\"ers" = "\"us\"\"ers\"" := by
  exact ⟨rfl, rfl, rfl, rfl⟩

/-- C3 counterexample: a filter with operator in and a non-array value is
not a caller error; it is silently dropped, leaving an empty WHERE
clause, an empty parameter list and no error. -/
theorem c3_counterexample_in_nonarray_dropped :
    compiledWhere [⟨"age", "in", Value.vNum 42⟩] = .ok ("", []) := by
  exact rfl

/-- C3 (amended): a filter whose operator is outside the fixed operator
mapping causes the fatal Unsupported-filter-operator error, but a filter
with operator in or nin whose value is not an array is silently dropped
from the compiled WHERE clause: it contributes no clause, no parameter
and no error. -/
theorem c3_amended_operator_handling (col op : String) (v : Value)
    (rest : List Filter) (acc : List String × List Value)
    (h : op ∉ supportedFilterOperators) :
    compileFilters (⟨col, op, v⟩ :: rest) acc =
      .error ("Unsupported filter operator: " ++ op)
    ∧ (isJsArray v = false →
        compileFilters (⟨col, "in", v⟩ :: rest) acc = compileFilters rest acc
        ∧ compileFilters (⟨col, "nin", v⟩ :: rest) acc = compileFilters rest acc) := by
  constructor
  · have hstep : compileFilterStep acc ⟨col, op, v⟩ =
        .error ("Unsupported filter operator: " ++ op) := by
      unfold compileFilterStep
      split <;> simp_all [supportedFilterOperators]
    simp [compileFilters, hstep]
  · intro hv
    constructor <;> simp [compileFilters, compileFilterStep, hv]

/-- C3 witness. -/
theorem c3_amended_operator_handling_witness :
    "between" ∉ supportedFilterOperators
    ∧ compileFilters [⟨"age", "between", Value.vNum 1⟩] ([], []) =
        .error "Unsupported filter operator: between"
    ∧ compileFilters [⟨"age", "in", Value.vNum 1⟩] ([], []) =
        compileFilters [] ([], []) := by
  have h : "between" ∉ supportedFilterOperators := by decide
  have hm := c3_amended_operator_handling "age" "between" (Value.vNum 1) [] ([], []) h
  exact ⟨h, hm.1, (hm.2 rfl).1⟩

/-- C4 counterexample: a startsWith filter is not compiled to a LIKE
predicate; the operator is absent from the switch, so the compiler
raises the fatal Unsupported-filter-operator error instead. -/
theorem c4_counterexample_startsWith_rejected :
    compiledWhere [⟨"name", "startsWith", Value.vStr "ab"⟩] =
      .error "Unsupported filter operator: startsWith" := by
  exact rfl

/-- C4 (amended): startsWith and endsWith are not in the operator mapping
of getTableData and such filters cause the fatal
Unsupported-filter-operator error; only contains wraps its value, in
percent signs on both sides, binding the wrapped value as a parameter,
and like binds the raw value. -/
theorem c4_amended_like_family (col : String) (v : Value)
    (rest : List Filter) (acc : List String × List Value) :
    compileFilters (⟨col, "startsWith", v⟩ :: rest) acc =
      .error "Unsupported filter operator: startsWith"
    ∧ compileFilters (⟨col, "endsWith", v⟩ :: rest) acc =
      .error "Unsupported filter operator: endsWith"
    ∧ compileFilters (⟨col, "contains", v⟩ :: rest) acc =
        compileFilters rest
          (acc.1 ++ [quoteName col ++ " LIKE $" ++ toString (acc.2.length + 1)],
           acc.2 ++ [Value.vStr ("%" ++ jsValueToString v ++ "%")])
    ∧ compileFilters (⟨col, "like", v⟩ :: rest) acc =
        compileFilters rest
          (acc.1 ++ [quoteName col ++ " LIKE $" ++ toString (acc.2.length + 1)],
           acc.2 ++ [v]) := by
  refine ⟨?_, ?_, ?_, ?_⟩ <;> simp [compileFilters, compileFilterStep]

/-- C4 witness. -/
theorem c4_amended_like_family_witness :
    compileFilters [⟨"name", "startsWith", Value.vStr "ab"⟩] ([], []) =
      .error "Unsupported filter operator: startsWith"
    ∧ compileFilters [⟨"name", "contains", Value.vStr "ab"⟩] ([], []) =
        compileFilters [] (["\"name\" LIKE $1"], [Value.vStr "%ab%"]) := by
  have hm := c4_amended_like_family "name" (Value.vStr "ab") [] ([], [])
  exact ⟨hm.1, hm.2.2.1⟩

/-- C5: an eq filter with a null value contributes exactly the IS NULL
fragment for its quoted column and binds no parameter, and a neq filter
with a null value contributes exactly the IS NOT NULL fragment and binds
no parameter, so no equality or inequality comparison against NULL is
ever emitted for such terms. -/
theorem c5_eq_neq_null_compile_to_is_null (col : String)
    (rest : List Filter) (acc : List String × List Value) :
    compileFilters (⟨col, "eq", Value.vNull⟩ :: rest) acc =
      compileFilters rest (acc.1 ++ [quoteName col ++ " IS NULL"], acc.2)
    ∧ compileFilters (⟨col, "neq", Value.vNull⟩ :: rest) acc =
      compileFilters rest (acc.1 ++ [quoteName col ++ " IS NOT NULL"], acc.2) := by
  constructor <;> simp [compileFilters, compileFilterStep]

/-- C5 witness. -/
theorem c5_eq_neq_null_compile_to_is_null_witness :
    compileFilters [⟨"age", "eq", Value.vNull⟩] ([], []) =
      compileFilters [] (["\"age\" IS NULL"], [])
    ∧ compileFilters [⟨"age", "neq", Value.vNull⟩] ([], []) =
      compileFilters [] (["\"age\" IS NOT NULL"], []) := by
  have hm := c5_eq_neq_null_compile_to_is_null "age" [] ([], [])
  exact ⟨hm.1, hm.2⟩

/-- C6: getTableData resolves perPage to 10 and page to 1 when the field
is absent or 0, computes offset = (page - 1) * perPage, builds a count
statement that shares the WHERE clause of the data statement, executes
both statements with the one shared parameter list, and computes
totalPages as the ceiling of total / perPage (characterized by the two
bounds of the last conjunct), with totalPages = 0 when total = 0. -/
theorem c6_pagination_and_shared_count (schema tableName : String)
    (options : TableDataOptions) (plan : QueryPlan)
    (h : buildTableDataPlan schema tableName options = .ok plan) :
    ((options.perPage = none ∨ options.perPage = some 0) → plan.perPage = 10)
    ∧ ((options.page = none ∨ options.page = some 0) → plan.page = 1)
    ∧ plan.offset = (plan.page - 1) * plan.perPage
    ∧ plan.dataQuery =
        "SELECT * FROM " ++ quoteName schema ++ "." ++ quoteName tableName ++
          " " ++ plan.whereClause ++ " " ++ plan.orderByClause ++ " LIMIT " ++
          toString plan.perPage ++ " OFFSET " ++ toString plan.offset
    ∧ plan.countQuery =
        "SELECT COUNT(*) as total FROM " ++ quoteName schema ++ "." ++
          quoteName tableName ++ " " ++ plan.whereClause
    ∧ (∀ d : Db, (getTableData ⟨some d, some schema⟩ tableName options).2 =
        [(plan.dataQuery, plan.params), (plan.countQuery, plan.params)])
    ∧ (0 < plan.perPage →
        totalPagesJs 0 plan.perPage = 0
        ∧ ∀ total : Int, 0 < total →
            total ≤ totalPagesJs total plan.perPage * plan.perPage
            ∧ (totalPagesJs total plan.perPage - 1) * plan.perPage < total) := by
  have h0 := h
  unfold buildTableDataPlan at h
  cases hw : compiledWhere options.filters with
  | error e =>
      rw [hw] at h
      simp at h
  | ok pr =>
      obtain ⟨w, qp⟩ := pr
      rw [hw] at h
      simp only [Except.ok.injEq] at h
      subst h
      refine ⟨?_, ?_, rfl, rfl, rfl, ?_, ?_⟩
      · rintro (hp | hp) <;> simp [hp, jsOrDefault]
      · rintro (hp | hp) <;> simp [hp, jsOrDefault]
      · intro d
        cases hpg : pgOne (d.exec ("SELECT COUNT(*) as total FROM " ++
            quoteName schema ++ "." ++ quoteName tableName ++ " " ++ w) qp) <;>
          simp [getTableData, h0, hpg]
      · intro hpp
        refine ⟨totalPagesJs_zero _, ?_⟩
        intro total htotal
        rw [totalPagesJs_eq_ceilDivInt]
        exact ceilDivInt_ceil_bounds total hpp

/-- C6 witness. -/
theorem c6_pagination_and_shared_count_witness :
    samplePlan.perPage = 10 ∧ samplePlan.page = 1
    ∧ samplePlan.offset = (samplePlan.page - 1) * samplePlan.perPage
    ∧ totalPagesJs 0 samplePlan.perPage = 0
    ∧ (5 : Int) ≤ totalPagesJs 5 samplePlan.perPage * samplePlan.perPage := by
  have hm := c6_pagination_and_shared_count "public" "t" defaultSampleOptions
    samplePlan rfl
  exact ⟨hm.1 (Or.inl rfl), hm.2.1 (Or.inl rfl), hm.2.2.1,
    (hm.2.2.2.2.2.2 (by decide)).1,
    ((hm.2.2.2.2.2.2 (by decide)).2 5 (by decide)).1⟩

/-- C7 counterexample: a DELETE that removes two rows (the database hands
back two RETURNING rows) does not make deleteRecord return true; the
one-or-none read of the result turns it into a wrapped error. -/
theorem c7_counterexample_multirow_delete :
    (deleteRecord ⟨some (constDb twoDeletedRows), some "public"⟩ "users"
        [("name", Value.vStr "dup")]).1 =
      .error "Failed to delete record: Multiple rows were not expected."
    ∧ twoDeletedRows.length = 2 := by
  exact ⟨rfl, rfl⟩

/-- C7 (amended): for an empty where map deleteRecord fails without
executing any statement; a null-valued field compiles to an IS NULL
predicate with no bound parameter, other fields to bound equality
predicates, all joined with AND; the call returns false when the DELETE
matched no row and true when it removed exactly one row, and fails with
a wrapped error when it removed more than one row, because the result is
read through a one-or-none row expectation. -/
theorem c7_amended_delete_behavior (d : Db) (schema tableName : String)
    (wh : List (String × Value)) :
    (wh = [] → deleteRecord ⟨some d, some schema⟩ tableName wh =
      (.error "Failed to delete record: Where conditions cannot be empty", []))
    ∧ (∀ k rest acc, deleteWhereAux ((k, Value.vNull) :: rest) acc =
        deleteWhereAux rest (acc.1 ++ [quoteName k ++ " IS NULL"], acc.2))
    ∧ (∀ k v rest acc, v ≠ Value.vNull →
        deleteWhereAux ((k, v) :: rest) acc =
          deleteWhereAux rest
            (acc.1 ++ [quoteName k ++ " = $" ++ toString (acc.2.length + 1)],
             acc.2 ++ [v]))
    ∧ (wh ≠ [] →
        (d.exec (deleteQueryOf schema tableName
              (String.intercalate " AND " (deleteWhereParts wh).1))
            (deleteWhereParts wh).2 = [] →
          deleteRecord ⟨some d, some schema⟩ tableName wh =
            (.ok false,
             [(deleteQueryOf schema tableName
                 (String.intercalate " AND " (deleteWhereParts wh).1),
               (deleteWhereParts wh).2)]))
        ∧ (∀ r, d.exec (deleteQueryOf schema tableName
              (String.intercalate " AND " (deleteWhereParts wh).1))
            (deleteWhereParts wh).2 = [r] →
          deleteRecord ⟨some d, some schema⟩ tableName wh =
            (.ok true,
             [(deleteQueryOf schema tableName
                 (String.intercalate " AND " (deleteWhereParts wh).1),
               (deleteWhereParts wh).2)]))
        ∧ (2 ≤ (d.exec (deleteQueryOf schema tableName
              (String.intercalate " AND " (deleteWhereParts wh).1))
            (deleteWhereParts wh).2).length →
          (deleteRecord ⟨some d, some schema⟩ tableName wh).1 =
            .error "Failed to delete record: Multiple rows were not expected.")) := by
  refine ⟨?_, ?_, ?_, ?_⟩
  · intro h
    subst h
    rfl
  · intro k rest acc
    simp [deleteWhereAux]
  · intro k v rest acc hv
    simp [deleteWhereAux, hv]
  · intro hne
    have hlen : ¬(wh.length = 0) := by
      simpa [List.length_eq_zero] using hne
    refine ⟨?_, ?_, ?_⟩
    · intro hex
      simp [deleteRecord, hlen, hex, pgOneOrNone]
    · intro r hex
      simp [deleteRecord, hlen, hex, pgOneOrNone]
    · intro hex
      rcases hrows : d.exec (deleteQueryOf schema tableName
          (String.intercalate " AND " (deleteWhereParts wh).1))
          (deleteWhereParts wh).2 with _ | ⟨r1, rs⟩
      · rw [hrows] at hex
        simp at hex
      · rcases rs with _ | ⟨r2, rs2⟩
        · rw [hrows] at hex
          simp at hex
        · simp [deleteRecord, hlen, hrows, pgOneOrNone]

/-- C7 witness. -/
theorem c7_amended_delete_behavior_witness :
    deleteRecord ⟨some (constDb [[("deleted", Value.vNum 1)]]), some "public"⟩
        "t" [("id", Value.vNum 5)] =
      (.ok true,
       [("DELETE FROM \"public\".\"t\" WHERE \"id\" = $1 RETURNING 1 AS deleted",
         [Value.vNum 5])])
    ∧ deleteRecord ⟨some (constDb [[("deleted", Value.vNum 1)]]), some "public"⟩
        "t" [] =
      (.error "Failed to delete record: Where conditions cannot be empty", []) := by
  constructor
  · have hm := c7_amended_delete_behavior (constDb [[("deleted", Value.vNum 1)]])
      "public" "t" [("id", Value.vNum 5)]
    exact (hm.2.2.2 (by decide)).2.1 [("deleted", Value.vNum 1)] rfl
  · exact (c7_amended_delete_behavior (constDb [[("deleted", Value.vNum 1)]])
      "public" "t" []).1 rfl

/-- C8: createRecord drops exactly the fields whose value is explicitly
undefined (first conjunct, both directions) and keeps explicitly-null
fields among the bound values (second conjunct); when the remaining
field set is empty the call fails with the input error and executes no
statement (third conjunct); otherwise it executes the single INSERT over
the remaining columns with the remaining values as bound parameters,
returns the row the database hands back through the one-row read, and
wraps any database error (fourth conjunct); the statement ends in the
returning clause (fifth conjunct). -/
theorem c8_createRecord_field_handling (d : Db) (schema tableName : String)
    (record : List (String × Value)) :
    (∀ k v, (k, v) ∈ record.filter (fun kv => !(isUndefinedV kv.2)) ↔
      ((k, v) ∈ record ∧ v ≠ Value.vUndefined))
    ∧ (∀ k, (k, Value.vNull) ∈ record →
        Value.vNull ∈ (record.filter (fun kv => !(isUndefinedV kv.2))).map Prod.snd)
    ∧ (record.filter (fun kv => !(isUndefinedV kv.2)) = [] →
        createRecord ⟨some d, some schema⟩ tableName record =
          (.error "Failed to create record: Record cannot be empty", []))
    ∧ (record.filter (fun kv => !(isUndefinedV kv.2)) ≠ [] →
        createRecord ⟨some d, some schema⟩ tableName record =
          (match pgOne (d.exec
              (insertQueryOf schema tableName
                ((record.filter (fun kv => !(isUndefinedV kv.2))).map Prod.fst))
              ((record.filter (fun kv => !(isUndefinedV kv.2))).map Prod.snd)) with
           | .ok r => .ok r
           | .error e => .error ("Failed to create record: " ++ e),
           [(insertQueryOf schema tableName
               ((record.filter (fun kv => !(isUndefinedV kv.2))).map Prod.fst),
             (record.filter (fun kv => !(isUndefinedV kv.2))).map Prod.snd)]))
    ∧ (∃ s, insertQueryOf schema tableName
        ((record.filter (fun kv => !(isUndefinedV kv.2))).map Prod.fst) =
          s ++ ") RETURNING *") := by
  refine ⟨?_, ?_, ?_, ?_, ?_⟩
  · intro k v
    rw [List.mem_filter]
    exact and_congr Iff.rfl (notUndefined_iff v)
  · intro k hk
    exact List.mem_map.2 ⟨(k, Value.vNull),
      List.mem_filter.2 ⟨hk, by simp [isUndefinedV]⟩, rfl⟩
  · intro h
    simp [createRecord, h]
  · intro h
    rcases hf : record.filter (fun kv => !(isUndefinedV kv.2)) with _ | ⟨kv0, rest0⟩
    · exact absurd hf h
    · rw [hf]
      cases hpg : pgOne (d.exec
          (insertQueryOf schema tableName (kv0.1 :: rest0.map Prod.fst))
          (kv0.2 :: rest0.map Prod.snd)) <;>
        simp [createRecord, hf, hpg]
  · exact ⟨_, rfl⟩

/-- C8 witness. -/
theorem c8_createRecord_field_handling_witness :
    createRecord ⟨some (constDb [[("id", Value.vNum 7)]]), some "public"⟩ "t"
        [("a", Value.vNull), ("b", Value.vUndefined)] =
      (.ok [("id", Value.vNum 7)],
       [("INSERT INTO \"public\".\"t\" (a) VALUES ($1) RETURNING *",
         [Value.vNull])])
    ∧ createRecord ⟨some (constDb [[("id", Value.vNum 7)]]), some "public"⟩ "t"
        [("b", Value.vUndefined)] =
      (.error "Failed to create record: Record cannot be empty", [])
    ∧ Value.vNull ∈
        (([("a", Value.vNull), ("b", Value.vUndefined)].filter
          (fun kv => !(isUndefinedV kv.2))).map Prod.snd) := by
  refine ⟨?_, ?_, ?_⟩
  · have hm := c8_createRecord_field_handling (constDb [[("id", Value.vNum 7)]])
      "public" "t" [("a", Value.vNull), ("b", Value.vUndefined)]
    exact (hm.2.2.2.1 (by decide)).trans rfl
  · exact (c8_createRecord_field_handling (constDb [[("id", Value.vNum 7)]])
      "public" "t" [("b", Value.vUndefined)]).2.2.1 rfl
  · exact (c8_createRecord_field_handling (constDb [[("id", Value.vNum 7)]])
      "public" "t" [("a", Value.vNull), ("b", Value.vUndefined)]).2.1 "a"
      (by decide)

/-- C9: the native-type mapping is a pure total function of the udt name:
any name outside the static table yields UNKNOWN (first conjunct) and the
result never depends on the other argument (second conjunct); being a
Lean function it returns exactly one UnifiedColumnType and cannot
throw. -/
theorem c9_mapType_total_and_unknown_default (dataType udtName : String)
    (h : udtName ∉ knownUdtNames) :
    mapPostgresTypeToUnifiedType dataType udtName = UnifiedColumnType.UNKNOWN
    ∧ ∀ dt2 : String, mapPostgresTypeToUnifiedType dataType udtName =
        mapPostgresTypeToUnifiedType dt2 udtName := by
  constructor
  · unfold mapPostgresTypeToUnifiedType
    split
    all_goals first
      | rfl
      | exact absurd (by decide) h
  · intro dt2
    rfl

/-- C9 witness. -/
theorem c9_mapType_total_and_unknown_default_witness :
    "mystery_type" ∉ knownUdtNames
    ∧ mapPostgresTypeToUnifiedType "USER-DEFINED" "mystery_type" =
        UnifiedColumnType.UNKNOWN := by
  have h : "mystery_type" ∉ knownUdtNames := by decide
  exact ⟨h, (c9_mapType_total_and_unknown_default "USER-DEFINED" "mystery_type" h).1⟩

/-- C10: with no active connection (db = none) each of getTableList,
getTableSchema, createRecord, deleteRecord and getTableData returns the
exact error message Database not connected, executes no statement, and
the message carries no operation-specific Failed-to prefix (final
conjunct: the message is not of that shape for any suffix). -/
theorem c10_not_connected_guard (schemaCfg : Option String)
    (tableName : String) (record wh : List (String × Value))
    (options : TableDataOptions) :
    getTableList ⟨none, schemaCfg⟩ = (.error "Database not connected", [])
    ∧ getTableSchema ⟨none, schemaCfg⟩ tableName =
        (.error "Database not connected", [])
    ∧ createRecord ⟨none, schemaCfg⟩ tableName record =
        (.error "Database not connected", [])
    ∧ deleteRecord ⟨none, schemaCfg⟩ tableName wh =
        (.error "Database not connected", [])
    ∧ getTableData ⟨none, schemaCfg⟩ tableName options =
        (.error "Database not connected", [])
    ∧ ∀ s : String, "Database not connected" ≠ "Failed to " ++ s := by
  refine ⟨rfl, rfl, rfl, rfl, rfl, ?_⟩
  intro s h
  have h2 := congrArg String.data h
  rw [String.data_append] at h2
  simp at h2

/-- C10 witness. -/
theorem c10_not_connected_guard_witness :
    getTableList ⟨none, some "public"⟩ = (.error "Database not connected", [])
    ∧ deleteRecord ⟨none, some "public"⟩ "t" [("id", Value.vNum 1)] =
        (.error "Database not connected", [])
    ∧ "Database not connected" ≠ "Failed to " ++ "delete record" := by
  have hm := c10_not_connected_guard (some "public") "t" [] [("id", Value.vNum 1)]
    defaultSampleOptions
  exact ⟨hm.1, hm.2.2.2.1, hm.2.2.2.2.2 "delete record"⟩

end AdminPanel
